import Mathlib

/-!
Verification development for the smartsurveillance repository.

The definitions below are a shallow embedding of the Python sources:
  - `src/src/frame_grabber.py`  (FrameGrabber: deque frame buffer, get_frame, release)
  - `src/src/object_detector.py` (ObjectDetector: detect, filter_by_class,
    set_confidence_threshold, the motion fallback)
  - `src/src/alert_system.py`   (AlertSystem: send_alert_email, alert_history)
  - `src/src/orchestrator.py`   (SurveillanceOrchestrator: _handle_detection,
    process_frame, get_stats)

Machine reals (Python floats for confidences, datetime values for times) are
modelled as rationals; frames are abstract identifiers; the external
capabilities (the YOLO model, the cv2 background-subtraction fallback, the
SMTP transport, the capture device) are oracles passed in as data, exactly at
the boundary where the Python code calls out of the repository.
-/

/-- A captured image frame, abstract (only identity matters to the logic). -/
abbrev Frame := Nat

/-! ## RingBuffer: `collections.deque(maxlen = buffer_size)`

`frame_grabber.py` line 38: `self.frame_buffer = deque(maxlen=buffer_size)`.
A CPython bounded deque on `append`: if `maxlen = 0` nothing is retained;
if the deque is full the leftmost (oldest) element is dropped first. -/

/-- One `deque.append` on a deque with `maxlen = cap`. -/
def dequeAppend (cap : Nat) (buf : List α) (x : α) : List α :=
  if cap = 0 then []
  else if buf.length < cap then buf ++ [x]
  else buf.tail ++ [x]

/-- A whole sequence of `append` calls starting from a given buffer. -/
def dequeAppendAll (cap : Nat) (buf : List α) (xs : List α) : List α :=
  xs.foldl (dequeAppend cap) buf

/-- Pushing `xs` into an initially empty bounded deque. -/
def pushList (cap : Nat) (xs : List α) : List α :=
  dequeAppendAll cap [] xs

theorem dequeAppend_length_le {cap : Nat} (buf : List α) (x : α)
    (h : buf.length ≤ cap) : (dequeAppend cap buf x).length ≤ cap := by
  unfold dequeAppend
  split
  · simp
  · split
    · simpa using by omega
    · rcases buf with _ | ⟨b, bs⟩
      · simp at *
        omega
      · simp at *
        omega

theorem dequeAppend_getLast? {cap : Nat} (hcap : 0 < cap) (buf : List α) (x : α) :
    (dequeAppend cap buf x).getLast? = some x := by
  unfold dequeAppend
  split
  · omega
  · split <;> simp

/-- Shape of a bounded deque built from scratch: it holds exactly the most
recent `cap` elements, oldest first, and its length is `min xs.length cap`. -/
theorem pushList_eq_drop (cap : Nat) (xs : List α) :
    pushList cap xs = xs.drop (xs.length - cap) ∧
      (pushList cap xs).length = min xs.length cap := by
  induction xs using List.reverseRecOn with
  | nil => simp [pushList, dequeAppendAll]
  | append_singleton ys x ih =>
    obtain ⟨ih1, ih2⟩ := ih
    have hstep : pushList cap (ys ++ [x]) = dequeAppend cap (pushList cap ys) x := by
      simp [pushList, dequeAppendAll]
    rcases Nat.eq_zero_or_pos cap with hc | hc
    · subst hc
      constructor
      · simp [hstep, dequeAppend]
      · simp [hstep, dequeAppend]
    · by_cases hlen : ys.length < cap
      · have hdrop' : ys.length + 1 - cap = 0 := by omega
        have hbuf : pushList cap ys = ys := by
          rw [ih1, (by omega : ys.length - cap = 0), List.drop_zero]
        constructor
        · rw [hstep, hbuf, dequeAppend, if_neg (by omega : ¬ cap = 0), if_pos hlen]
          simp [hdrop']
        · rw [hstep, hbuf, dequeAppend, if_neg (by omega : ¬ cap = 0), if_pos hlen]
          simp
          omega
      · have hminys : min ys.length cap = cap := by omega
        have hfull : (pushList cap ys).length = cap := by rw [ih2, hminys]
        have htail : (pushList cap ys).tail = ys.drop (ys.length - cap + 1) := by
          rw [ih1, List.tail_drop]
        constructor
        · rw [hstep, dequeAppend]
          simp only [if_neg (by omega : ¬ cap = 0), hfull,
            if_neg (by omega : ¬ cap < cap), htail]
          have hle : ys.length + 1 - cap ≤ ys.length := by omega
          rw [List.drop_append_of_le_length (by simpa using hle)]
          rw [(by omega : ys.length - cap + 1 = ys.length + 1 - cap)]
          simp
        · rw [hstep]
          have : (dequeAppend cap (pushList cap ys) x).length ≤ cap :=
            dequeAppend_length_le _ _ (by omega)
          have hge : cap ≤ (dequeAppend cap (pushList cap ys) x).length := by
            rw [dequeAppend]
            simp only [if_neg (by omega : ¬ cap = 0), hfull,
              if_neg (by omega : ¬ cap < cap)]
            have hlen' : (pushList cap ys).tail.length = cap - 1 := by
              rw [List.length_tail, hfull]
            simp [hlen']
            omega
          simp
          omega

/-! ## ObjectDetector (`src/src/object_detector.py`)

Confidences are Python floats; they are modelled as rationals. The YOLO
model call (`self.model(frame, verbose=False)` plus the unpacking of
`result.boxes`) is an oracle producing either a raw detection list or an
error; the cv2 background-subtraction fallback is an oracle producing
bounding rectangles. -/

/-- `Detection` dataclass (object_detector.py lines 14-20). -/
structure Detection where
  class_name : String
  confidence : ℚ
  bbox : ℤ × ℤ × ℤ × ℤ
  class_id : ℤ
deriving DecidableEq

/-- Outcome of one call to the YOLO model on a frame: the raw (unfiltered)
boxes already unpacked to `Detection` data, or an exception. -/
inductive ModelResult where
  | ok (raw : List Detection)
  | err
deriving DecidableEq

/-- State of an `ObjectDetector` instance.  `model` is `self.model`
(`none` = Python `None`); `fallback` stands for `self.fallback.detect`,
the cv2 motion detector, as an abstract rectangle source. -/
structure DetectorState where
  confidence_threshold : ℚ
  model : Option (Frame → ModelResult)
  has_fallback : Bool
  fallback : Frame → List (ℤ × ℤ × ℤ × ℤ)

/-- How `ObjectDetector.detect` wraps one fallback rectangle
(object_detector.py line 106). -/
def motionDetection (r : ℤ × ℤ × ℤ × ℤ) : Detection :=
  { class_name := "motion", confidence := 1, bbox := r, class_id := 0 }

/-- `ObjectDetector.detect` (object_detector.py lines 89-133): with no model
use the fallback when present, else return `[]`; with a model, keep exactly
the boxes whose confidence is `≥ self.confidence_threshold`, in order, and
return `[]` if the model call raises. -/
def detect (st : DetectorState) (frame : Frame) : List Detection :=
  match st.model with
  | none =>
      if st.has_fallback then (st.fallback frame).map motionDetection
      else []
  | some m =>
      match m frame with
      | .ok raw => raw.filter (fun d => st.confidence_threshold ≤ d.confidence)
      | .err => []

/-- `ObjectDetector.filter_by_class` (object_detector.py lines 135-138):
`[d for d in detections if d.class_name in class_names]`. -/
def filter_by_class (detections : List Detection) (class_names : List String) :
    List Detection :=
  detections.filter (fun d => d.class_name ∈ class_names)

/-- `ObjectDetector.set_confidence_threshold` (object_detector.py lines
158-160): `self.confidence_threshold = max(0.0, min(1.0, threshold))`. -/
def set_confidence_threshold (st : DetectorState) (threshold : ℚ) : DetectorState :=
  { st with confidence_threshold := max 0 (min 1 threshold) }

/-- Outcome of `ObjectDetector._initialize_model`: the YOLO model loaded, or
an import/load failure (both failures install the motion fallback). -/
inductive InitOutcome where
  | loaded (m : Frame → ModelResult)
  | importError
  | loadError

/-- `ObjectDetector.__init__` (object_detector.py lines 26-39) followed by
`_initialize_model` (lines 68-87).  The constructor stores
`confidence_threshold` as passed, unclamped; on load failure the model is
`None` and the motion fallback (`fb`) is installed. -/
def mkDetector (threshold : ℚ) (o : InitOutcome)
    (fb : Frame → List (ℤ × ℤ × ℤ × ℤ)) : DetectorState :=
  match o with
  | .loaded m =>
      { confidence_threshold := threshold, model := some m,
        has_fallback := false, fallback := fb }
  | .importError =>
      { confidence_threshold := threshold, model := none,
        has_fallback := true, fallback := fb }
  | .loadError =>
      { confidence_threshold := threshold, model := none,
        has_fallback := true, fallback := fb }

/-! ## FrameGrabber (`src/src/frame_grabber.py`)

The capture handle (`self.cap`) is modelled as `Option Bool`: `none` is
Python `None`, `some released` is a handle object whose `release()` has
(`true`) or has not (`false`) been called.  The acquisition thread's
successful read iterations are the `captureFrame` steps. -/

/-- State of a `FrameGrabber` instance (frame_grabber.py lines 20-46). -/
structure FrameGrabberState where
  cap : Option Bool
  is_active : Bool
  is_running : Bool
  frame_buffer : List (Bool × Frame)
  frame_count : Nat
  buffer_size : Nat
deriving DecidableEq

/-- `FrameGrabber.__init__` (frame_grabber.py lines 20-46). -/
def initGrabber (buffer_size : Nat := 30) : FrameGrabberState :=
  { cap := none, is_active := false, is_running := false,
    frame_buffer := [], frame_count := 0, buffer_size := buffer_size }

/-- `FrameGrabber.open` (frame_grabber.py lines 48-78).  `ok` is the oracle
for `cv2.VideoCapture(...).isOpened()`: the `VideoCapture` object is
assigned either way; only on success do `is_active`/`is_running` get set and
the capture thread start. -/
def openGrabber (s : FrameGrabberState) (ok : Bool) : FrameGrabberState × Bool :=
  if ok then
    ({ s with cap := some false, is_active := true, is_running := true }, true)
  else
    ({ s with cap := some false }, false)

/-- One successful read iteration of `FrameGrabber._capture_frames`
(frame_grabber.py lines 80-99): while running with a handle, append
`(ret, frame.copy())` (`ret = True` on this path) and bump `frame_count`. -/
def captureFrame (s : FrameGrabberState) (f : Frame) : FrameGrabberState :=
  if s.is_running ∧ s.cap ≠ none then
    { s with
        frame_buffer := dequeAppend s.buffer_size s.frame_buffer (true, f),
        frame_count := s.frame_count + 1 }
  else s

/-- The capture thread pushing a whole list of frames in order. -/
def captureAll (s : FrameGrabberState) (fs : List Frame) : FrameGrabberState :=
  fs.foldl captureFrame s

/-- `FrameGrabber.get_frame` (frame_grabber.py lines 101-117): `(False, None)`
when `is_active` is false or the buffer is empty, else `buffer[-1]`. -/
def get_frame (s : FrameGrabberState) : Bool × Option Frame :=
  if s.is_active = false then (false, none)
  else
    match s.frame_buffer.getLast? with
    | some (ret, f) => (ret, some f)
    | none => (false, none)

/-- `FrameGrabber.release` (frame_grabber.py lines 148-157): clear
`is_running`, join the thread (bounded, no state effect), and if a handle
object exists call its `release()` and clear `is_active`.  `self.cap` is not
set back to `None`. -/
def releaseGrabber (s : FrameGrabberState) : FrameGrabberState :=
  let s1 := { s with is_running := false }
  match s1.cap with
  | some _ => { s1 with cap := some true, is_active := false }
  | none => s1

/-! ## AlertSystem (`src/src/alert_system.py`) -/

/-- The record appended to `AlertSystem.alert_history` on a successful send
(alert_system.py lines 90-94): `{'timestamp', 'subject', 'recipients'}`. -/
structure AlertRecord where
  timestamp : ℚ
  subject : String
  recipients : List String
deriving DecidableEq

/-- State of an `AlertSystem` instance (alert_system.py lines 22-35).
`email_configured` is `sender_email and sender_password` being set. -/
structure AlertSystemState where
  email_configured : Bool
  recipient_emails : List String
  alert_history : List AlertRecord
deriving DecidableEq

/-- `AlertSystem.send_alert_email` (alert_system.py lines 49-101).  `now` is
`datetime.now()` at the append; `smtp_ok` is the oracle for the SMTP
transaction (lines 84-88) succeeding.  Unconfigured email, no recipients,
and an SMTP exception all return `False` without touching `alert_history`;
only a successful send appends the record. -/
def send_alert_email (st : AlertSystemState) (subject : String) (now : ℚ)
    (smtp_ok : Bool) : AlertSystemState × Bool :=
  if st.email_configured = false then (st, false)
  else if st.recipient_emails = [] then (st, false)
  else if smtp_ok then
    ({ st with alert_history := st.alert_history ++
        [{ timestamp := now, subject := subject,
           recipients := st.recipient_emails }] }, true)
  else (st, false)

/-! ## SurveillanceOrchestrator (`src/src/orchestrator.py`)

Times are rational seconds relative to an arbitrary epoch, standing for
`datetime.now()` values (which have microsecond resolution). -/

/-- The `seconds` attribute of a Python `timedelta` holding `d` seconds:
`timedelta` normalises to days plus a remainder, so `.seconds` is
`floor(d) mod 86400` — NOT the total `d` (that is `.total_seconds()`). -/
def tdSeconds (d : ℚ) : ℤ :=
  ⌊d⌋ % 86400

/-- The orchestrator's `self.config` dict (orchestrator.py lines 26-33). -/
structure Config where
  target_classes : List String
  confidence_threshold : ℚ
  alert_cooldown_seconds : ℤ
  enable_email_alerts : Bool
  save_alert_frames : Bool
  alert_frame_dir : String
deriving DecidableEq

/-- The default configuration (orchestrator.py lines 26-33). -/
def defaultConfig : Config :=
  { target_classes := ["person"], confidence_threshold := 1/2,
    alert_cooldown_seconds := 30, enable_email_alerts := false,
    save_alert_frames := true, alert_frame_dir := "alerts" }

/-- State of a `SurveillanceOrchestrator` instance (orchestrator.py lines
18-36).  `alerts_raised` is a ghost observer recording the time of every
pass through the alert-raising branch of `_handle_detection` (line 115
onward); the Python object keeps no such list, it is instrumentation used
to count alerts. -/
structure OrchestratorState where
  config : Config
  last_alert_time : Option ℚ
  detection_history_len : Nat
  alert_system : AlertSystemState
  is_running : Bool
  frame_grabber : Option FrameGrabberState
  alerts_raised : List ℚ
deriving DecidableEq

/-- A freshly constructed orchestrator (orchestrator.py lines 18-36). -/
def initOrchestrator : OrchestratorState :=
  { config := defaultConfig, last_alert_time := none,
    detection_history_len := 0,
    alert_system := { email_configured := false, recipient_emails := [],
                      alert_history := [] },
    is_running := false, frame_grabber := none, alerts_raised := [] }

/-- The subject line composed in `_handle_detection` (orchestrator.py line
133): `f"Security Alert: {len(detections)} Objects Detected"`. -/
def alertSubject (ndet : Nat) : String :=
  "Security Alert: " ++ toString ndet ++ " Objects Detected"

/-- The alert-raising branch of `_handle_detection` (orchestrator.py lines
115-135): set `last_alert_time = now`, optionally save the frame (pure I/O,
no orchestrator state), and if email alerts are enabled call
`send_alert_email` ignoring its return value. -/
def raiseAlert (s : OrchestratorState) (now : ℚ) (ndet : Nat)
    (smtp_ok : Bool) : OrchestratorState :=
  let s1 := { s with last_alert_time := some now,
                     alerts_raised := s.alerts_raised ++ [now] }
  if s.config.enable_email_alerts then
    { s1 with alert_system :=
        (send_alert_email s.alert_system (alertSubject ndet) now smtp_ok).1 }
  else s1

/-- `SurveillanceOrchestrator._handle_detection` (orchestrator.py lines
107-135), reached only for a non-empty filtered detection list.  The gate
(lines 110-113): return early when `last_alert_time` is set (a `datetime`
is always truthy, `None` falsy) and `(now - last_alert_time).seconds` is
below the cooldown.  The code calls `datetime.now()` again on line 115;
both calls are modelled by the single event time `now`. -/
def handle_detection (s : OrchestratorState) (now : ℚ) (ndet : Nat)
    (smtp_ok : Bool) : OrchestratorState :=
  match s.last_alert_time with
  | some t =>
      if tdSeconds (now - t) < s.config.alert_cooldown_seconds then s
      else raiseAlert s now ndet smtp_ok
  | none => raiseAlert s now ndet smtp_ok

/-- Whether the cooldown gate of `_handle_detection` lets an event at `now`
through: `last_alert_time` unset, or the `timedelta.seconds` value at or
above the cooldown. -/
def gateOpen (cd : ℤ) (last : Option ℚ) (now : ℚ) : Bool :=
  match last with
  | none => true
  | some t => decide (cd ≤ tdSeconds (now - t))

/-- A run of qualifying (non-empty filtered) detection events through
`_handle_detection`, one per listed time, each with one detection and the
default (disabled) email path. -/
def runDetections (s : OrchestratorState) (times : List ℚ) : OrchestratorState :=
  times.foldl (fun s t => handle_detection s t 1 false) s

/-- `SurveillanceOrchestrator.process_frame` (orchestrator.py lines 70-105)
for a frame that was actually obtained: run `_handle_detection` when the
filtered detection list is non-empty (`nqual ≠ 0`), then append to
`self.detection_history` unconditionally. -/
def process_event (s : OrchestratorState) (now : ℚ) (nqual : Nat)
    (smtp_ok : Bool) : OrchestratorState :=
  let s1 := if nqual = 0 then s else handle_detection s now nqual smtp_ok
  { s1 with detection_history_len := s1.detection_history_len + 1 }

/-- The dict returned by `SurveillanceOrchestrator.get_stats`
(orchestrator.py lines 186-193). -/
structure Stats where
  is_running : Bool
  total_detections : Nat
  last_alert : Option ℚ
  config : Config
deriving DecidableEq

/-- `SurveillanceOrchestrator.get_stats` (orchestrator.py lines 186-193):
`{'is_running', 'total_detections' (history length), 'last_alert',
'config' (a copy)}`. -/
def get_stats (s : OrchestratorState) : Stats :=
  { is_running := s.is_running, total_detections := s.detection_history_len,
    last_alert := s.last_alert_time, config := s.config }

/-- The frames-captured running total, read off the frame grabber
(`FrameGrabber.get_frame_info`, frame_grabber.py lines 134-146, key
`frame_count`); `0` when no grabber exists (the info dict is empty). -/
def framesCaptured (s : OrchestratorState) : Nat :=
  match s.frame_grabber with
  | some g => g.frame_count
  | none => 0

/-! ## Helper lemmas on the FrameGrabber -/

theorem captureFrame_fields (s : FrameGrabberState) (f : Frame) :
    (captureFrame s f).is_active = s.is_active ∧
      (captureFrame s f).is_running = s.is_running ∧
      (captureFrame s f).cap = s.cap ∧
      (captureFrame s f).buffer_size = s.buffer_size := by
  unfold captureFrame
  split <;> simp

theorem captureAll_fields (fs : List Frame) (s : FrameGrabberState) :
    (captureAll s fs).is_active = s.is_active ∧
      (captureAll s fs).is_running = s.is_running ∧
      (captureAll s fs).cap = s.cap ∧
      (captureAll s fs).buffer_size = s.buffer_size := by
  induction fs generalizing s with
  | nil => simp [captureAll]
  | cons f fs ih =>
    have hstep : captureAll s (f :: fs) = captureAll (captureFrame s f) fs := by
      simp [captureAll]
    obtain ⟨h1, h2, h3, h4⟩ := captureFrame_fields s f
    obtain ⟨g1, g2, g3, g4⟩ := ih (captureFrame s f)
    exact ⟨by rw [hstep, g1, h1], by rw [hstep, g2, h2],
      by rw [hstep, g3, h3], by rw [hstep, g4, h4]⟩

theorem captureFrame_step (s : FrameGrabberState) (f : Frame)
    (hr : s.is_running = true) (hc : s.cap ≠ none) :
    captureFrame s f =
      { s with frame_buffer := dequeAppend s.buffer_size s.frame_buffer (true, f),
               frame_count := s.frame_count + 1 } := by
  unfold captureFrame
  rw [if_pos ⟨hr, hc⟩]

theorem captureAll_buffer (fs : List Frame) (s : FrameGrabberState)
    (hr : s.is_running = true) (hc : s.cap ≠ none) :
    (captureAll s fs).frame_buffer =
      dequeAppendAll s.buffer_size s.frame_buffer (fs.map (fun f => (true, f))) ∧
      (captureAll s fs).frame_count = s.frame_count + fs.length := by
  induction fs generalizing s with
  | nil => simp [captureAll, dequeAppendAll]
  | cons f fs ih =>
    have hstep : captureAll s (f :: fs) = captureAll (captureFrame s f) fs := by
      simp [captureAll]
    have hone := captureFrame_step s f hr hc
    obtain ⟨ihb, ihn⟩ := ih (captureFrame s f) (by rw [hone]; exact hr)
      (by rw [hone]; exact hc)
    constructor
    · rw [hstep, ihb, hone]
      simp [dequeAppendAll]
    · rw [hstep, ihn, hone]
      simp
      omega

theorem captureAll_of_not_running (fs : List Frame) (s : FrameGrabberState)
    (hr : s.is_running = false) : captureAll s fs = s := by
  induction fs with
  | nil => rfl
  | cons f fs ih =>
    have hstep : captureAll s (f :: fs) = captureAll (captureFrame s f) fs := by
      simp [captureAll]
    have hone : captureFrame s f = s := by
      unfold captureFrame
      rw [if_neg]
      intro h
      rw [hr] at h
      exact absurd h.1 (by simp)
    rw [hstep, hone, ih]

/-- Claim C2 — RingBuffer retention: for every push sequence longer than the
capacity, the deque afterwards holds exactly the most recent `capacity`
elements in insertion order (oldest first), its length is then exactly the
capacity, and after every prefix of the sequence the length is at most the
capacity; moreover the grabber's capture loop drives its buffer through
exactly these deque states. -/
theorem claim_C2_ringbuffer_retention (cap : Nat) (xs : List Frame)
    (hx : cap < xs.length) :
    pushList cap xs = xs.drop (xs.length - cap) ∧
      (pushList cap xs).length = cap ∧
      (∀ n : Nat, (pushList cap (xs.take n)).length ≤ cap) ∧
      (captureAll ((openGrabber (initGrabber cap) true).1) xs).frame_buffer =
        pushList cap (xs.map (fun f => (true, f))) := by
  obtain ⟨h1, h2⟩ := pushList_eq_drop cap xs
  refine ⟨h1, by rw [h2]; omega, fun n => ?_, ?_⟩
  · have := (pushList_eq_drop cap (xs.take n)).2
    rw [this]
    omega
  · have hopen : (openGrabber (initGrabber cap) true).1 =
        { cap := some false, is_active := true, is_running := true,
          frame_buffer := [], frame_count := 0, buffer_size := cap } := by
      simp [openGrabber, initGrabber]
    rw [hopen]
    have := (captureAll_buffer xs
      { cap := some false, is_active := true, is_running := true,
        frame_buffer := [], frame_count := 0, buffer_size := cap }
      (by simp) (by simp)).1
    rw [this]
    rfl

/-- Witness for C2 at capacity 2 and pushes `[1, 2, 3, 4]`. -/
theorem claim_C2_witness :
    2 < ([1, 2, 3, 4] : List Frame).length ∧
      (pushList 2 ([1, 2, 3, 4] : List Frame) =
          ([1, 2, 3, 4] : List Frame).drop (([1, 2, 3, 4] : List Frame).length - 2) ∧
        (pushList 2 ([1, 2, 3, 4] : List Frame)).length = 2 ∧
        (∀ n : Nat, (pushList 2 (([1, 2, 3, 4] : List Frame).take n)).length ≤ 2) ∧
        (captureAll ((openGrabber (initGrabber 2) true).1)
            ([1, 2, 3, 4] : List Frame)).frame_buffer =
          pushList 2 (([1, 2, 3, 4] : List Frame).map (fun f => (true, f)))) :=
  ⟨by decide, claim_C2_ringbuffer_retention 2 [1, 2, 3, 4] (by decide)⟩

/-- Claim C7 — getFrame contract: a grabber that was never opened (even if
the capture loop were driven) and an opened grabber whose buffer never
received a frame both yield `available = false` with no frame; after at
least one push on an opened grabber, `get_frame` yields `available = true`
together with the most recently pushed frame. -/
theorem claim_C7_get_frame_contract (bs : Nat) (hbs : 0 < bs)
    (fs : List Frame) (hfs : fs ≠ []) :
    get_frame (initGrabber bs) = (false, none) ∧
      get_frame (captureAll (initGrabber bs) fs) = (false, none) ∧
      get_frame ((openGrabber (initGrabber bs) true).1) = (false, none) ∧
      get_frame (captureAll ((openGrabber (initGrabber bs) true).1) fs) =
        (true, fs.getLast?) := by
  refine ⟨by simp [get_frame, initGrabber], ?_, ?_, ?_⟩
  · rw [captureAll_of_not_running fs (initGrabber bs) (by simp [initGrabber])]
    simp [get_frame, initGrabber]
  · simp [get_frame, openGrabber, initGrabber]
  · set so : FrameGrabberState :=
      { cap := some false, is_active := true, is_running := true,
        frame_buffer := [], frame_count := 0, buffer_size := bs } with hso
    have hopen : (openGrabber (initGrabber bs) true).1 = so := by
      simp [openGrabber, initGrabber, hso]
    rw [hopen]
    induction fs using List.reverseRecOn with
    | nil => exact absurd rfl hfs
    | append_singleton ys x ih =>
      have hstep : captureAll so (ys ++ [x]) = captureFrame (captureAll so ys) x := by
        simp [captureAll]
      obtain ⟨ha, hr, hc, hb⟩ := captureAll_fields ys so
      have hone := captureFrame_step (captureAll so ys) x
        (by rw [hr]) (by rw [hc]; simp)
      have hlast : (captureFrame (captureAll so ys) x).frame_buffer.getLast? =
          some (true, x) := by
        rw [hone]
        exact dequeAppend_getLast? (by rw [hb]; exact hbs) _ _
      have hact : (captureFrame (captureAll so ys) x).is_active = true := by
        rw [hone]
        rw [ha]
      rw [hstep, get_frame, hact]
      simp [hlast]

/-- Witness for C7 with the default buffer size 30 and pushes `[5, 6]`. -/
theorem claim_C7_witness :
    0 < 30 ∧ ([5, 6] : List Frame) ≠ [] ∧
      (get_frame (initGrabber 30) = (false, none) ∧
        get_frame (captureAll (initGrabber 30) [5, 6]) = (false, none) ∧
        get_frame ((openGrabber (initGrabber 30) true).1) = (false, none) ∧
        get_frame (captureAll ((openGrabber (initGrabber 30) true).1) [5, 6]) =
          (true, ([5, 6] : List Frame).getLast?)) :=
  ⟨by decide, by decide, claim_C7_get_frame_contract 30 (by decide) [5, 6] (by decide)⟩

/-- Claim C8 — release idempotence: on every grabber state, calling
`release` twice yields exactly the state of calling it once (the second
call is a state no-op); one call already clears the run flag, and when a
capture handle exists it leaves the handle released and `is_active` false. -/
theorem claim_C8_release_idempotent (s : FrameGrabberState) (hc : s.cap ≠ none) :
    releaseGrabber (releaseGrabber s) = releaseGrabber s ∧
      (releaseGrabber s).is_running = false ∧
      (releaseGrabber s).cap = some true ∧
      (releaseGrabber s).is_active = false := by
  rcases hcap : s.cap with _ | b
  · exact absurd hcap hc
  · refine ⟨?_, ?_, ?_, ?_⟩ <;> simp [releaseGrabber, hcap]

/-- Witness for C8 on a freshly opened grabber. -/
theorem claim_C8_witness :
    ((openGrabber (initGrabber 30) true).1).cap ≠ none ∧
      (releaseGrabber (releaseGrabber ((openGrabber (initGrabber 30) true).1)) =
          releaseGrabber ((openGrabber (initGrabber 30) true).1) ∧
        (releaseGrabber ((openGrabber (initGrabber 30) true).1)).is_running = false ∧
        (releaseGrabber ((openGrabber (initGrabber 30) true).1)).cap = some true ∧
        (releaseGrabber ((openGrabber (initGrabber 30) true).1)).is_active = false) :=
  ⟨by decide, claim_C8_release_idempotent _ (by decide)⟩

/-! ## Detector theorems -/

/-- A generic detection with the given confidence, for the spec's worked
confidence examples. -/
def exD (c : ℚ) : Detection :=
  { class_name := "obj", confidence := c, bbox := (0, 0, 0, 0), class_id := 0 }

/-- The spec's raw confidence example `[0.9, 0.3, 0.6]`. -/
def exRaw : List Detection := [exD 0.9, exD 0.3, exD 0.6]

/-- A model oracle that always returns `exRaw`. -/
def exModel : Frame → ModelResult := fun _ => ModelResult.ok exRaw

/-- A detector holding `exModel` at threshold `0.5`. -/
def exDetector : DetectorState :=
  { confidence_threshold := 0.5, model := some exModel,
    has_fallback := false, fallback := fun _ => [] }

/-- A `person` detection with the given confidence. -/
def personD (c : ℚ) : Detection :=
  { class_name := "person", confidence := c, bbox := (0, 0, 0, 0), class_id := 0 }

/-- A `car` detection with the given confidence. -/
def carD (c : ℚ) : Detection :=
  { class_name := "car", confidence := c, bbox := (0, 0, 0, 0), class_id := 2 }

/-- Claim C3 — confidence thresholding happens exactly once, in `detect`:
when the model call succeeds, `detect` returns exactly the raw boxes whose
confidence is at least the threshold, in input order; the later
`filter_by_class` stage keeps a detection of a targeted class whatever its
confidence (so no stage re-filters by confidence); and on raw confidences
`[0.9, 0.3, 0.6]` with threshold `0.5` the result is exactly the `0.9` and
`0.6` entries. -/
theorem claim_C3_threshold_enforced_once (st : DetectorState)
    (m : Frame → ModelResult) (f : Frame) (raw : List Detection)
    (hm : st.model = some m) (hraw : m f = .ok raw) :
    detect st f = raw.filter (fun d => st.confidence_threshold ≤ d.confidence) ∧
      (∀ (dets : List Detection) (ts : List String) (d : Detection),
        d ∈ dets → d.class_name ∈ ts → d ∈ filter_by_class dets ts) ∧
      detect exDetector 0 = [exD 0.9, exD 0.6] := by
  refine ⟨?_, ?_, ?_⟩
  · simp [detect, hm, hraw]
  · intro dets ts d hd hcls
    simp [filter_by_class, List.mem_filter]
    exact ⟨hd, hcls⟩
  · show (exRaw.filter (fun d => (0.5 : ℚ) ≤ d.confidence)) = [exD 0.9, exD 0.6]
    norm_num [exRaw, exD, List.filter]

/-- Witness for C3 on the concrete `exDetector`. -/
theorem claim_C3_witness :
    exDetector.model = some exModel ∧ exModel 0 = .ok exRaw ∧
      (detect exDetector 0 =
          exRaw.filter (fun d => exDetector.confidence_threshold ≤ d.confidence) ∧
        (∀ (dets : List Detection) (ts : List String) (d : Detection),
          d ∈ dets → d.class_name ∈ ts → d ∈ filter_by_class dets ts) ∧
        detect exDetector 0 = [exD 0.9, exD 0.6]) :=
  ⟨rfl, rfl, claim_C3_threshold_enforced_once exDetector exModel 0 exRaw rfl rfl⟩

/-- Claim C4 — `filter_by_class` keeps exactly the detections whose
`class_name` is among the targets, preserving input order (the result is a
sublist of the input); the target test is pure membership, insensitive to
the ordering of `target_classes`; and the spec's worked example holds:
thresholding `[person(0.9), car(0.8), person(0.4)]` at `0.5` and filtering
by `{"person"}` yields exactly `[person(0.9)]`. -/
theorem claim_C4_filter_by_class (dets : List Detection) (ts ts' : List String)
    (hperm : ts.Perm ts') :
    (∀ d : Detection, d ∈ filter_by_class dets ts ↔
        d ∈ dets ∧ d.class_name ∈ ts) ∧
      List.Sublist (filter_by_class dets ts) dets ∧
      filter_by_class dets ts = filter_by_class dets ts' ∧
      filter_by_class
          (([personD 0.9, carD 0.8, personD 0.4]).filter
            (fun d => (0.5 : ℚ) ≤ d.confidence)) ["person"] = [personD 0.9] := by
  refine ⟨?_, ?_, ?_, ?_⟩
  · intro d
    simp [filter_by_class, List.mem_filter]
  · exact List.filter_sublist dets
  · exact List.filter_congr (fun d _ => decide_eq_decide.mpr hperm.mem_iff)
  · norm_num [personD, carD, List.filter, filter_by_class]
    rfl

/-- Witness for C4 with targets `["person", "car"]` reordered. -/
theorem claim_C4_witness :
    (["person", "car"] : List String).Perm ["car", "person"] ∧
      ((∀ d : Detection, d ∈ filter_by_class [personD 0.9] ["person", "car"] ↔
          d ∈ [personD 0.9] ∧ d.class_name ∈ ["person", "car"]) ∧
        List.Sublist (filter_by_class [personD 0.9] ["person", "car"]) [personD 0.9] ∧
        filter_by_class [personD 0.9] ["person", "car"] =
          filter_by_class [personD 0.9] ["car", "person"] ∧
        filter_by_class
            (([personD 0.9, carD 0.8, personD 0.4]).filter
              (fun d => (0.5 : ℚ) ≤ d.confidence)) ["person"] = [personD 0.9]) :=
  ⟨List.Perm.swap "car" "person" [], claim_C4_filter_by_class [personD 0.9]
    ["person", "car"] ["car", "person"] (List.Perm.swap "car" "person" [])⟩

/-- A detector whose YOLO load failed, holding the motion fallback, which
reports one moving region.  This is the state `_initialize_model` leaves
after an `ImportError` or load exception (object_detector.py lines 75-87),
at a moment when background subtraction finds motion. -/
def motionOnlyDetector : DetectorState :=
  { confidence_threshold := 0.5, model := none, has_fallback := true,
    fallback := fun _ => [(0, 0, 10, 10)] }

/-- A detector with no model and no fallback (the configuration the
orchestrator probes for on orchestrator.py line 60). -/
def bareDetector : DetectorState :=
  { confidence_threshold := 0.5, model := none, has_fallback := false,
    fallback := fun _ => [] }

/-- A detector whose model call raises on every frame. -/
def raisingDetector : DetectorState :=
  { confidence_threshold := 0.5, model := some (fun _ => ModelResult.err),
    has_fallback := false, fallback := fun _ => [] }

/-- Claim C5 counterexample: with the detection model absent, `detect` does
NOT return an empty list — the installed motion fallback reports a region,
and `detect` returns a `motion` detection for it. -/
theorem claim_C5_counterexample :
    motionOnlyDetector.model = none ∧ detect motionOnlyDetector 0 ≠ [] := by
  refine ⟨rfl, ?_⟩
  intro h
  simp [detect, motionOnlyDetector] at h

/-- Claim C5 as amended — detector failure never propagates, but the
degraded result is empty only when no fallback is installed: with no model
and no fallback `detect` returns `[]`; when the model call raises it
returns `[]`; with no model but the motion fallback installed it returns
one confidence-1.0 `motion` detection per fallback rectangle. -/
theorem claim_C5_amended (st : DetectorState) (f : Frame) :
    (st.model = none → st.has_fallback = false → detect st f = []) ∧
      (∀ m, st.model = some m → m f = .err → detect st f = []) ∧
      (st.model = none → st.has_fallback = true →
        detect st f = (st.fallback f).map motionDetection) := by
  refine ⟨?_, ?_, ?_⟩
  · intro h1 h2
    simp [detect, h1, h2]
  · intro m h1 h2
    simp [detect, h1, h2]
  · intro h1 h2
    simp [detect, h1, h2]

/-- Witness for C5 (amended) on the three concrete degraded detectors. -/
theorem claim_C5_witness :
    bareDetector.model = none ∧ bareDetector.has_fallback = false ∧
      raisingDetector.model = some (fun _ => ModelResult.err) ∧
      motionOnlyDetector.model = none ∧ motionOnlyDetector.has_fallback = true ∧
      detect bareDetector 0 = [] ∧
      detect raisingDetector 0 = [] ∧
      detect motionOnlyDetector 0 =
        (motionOnlyDetector.fallback 0).map motionDetection :=
  ⟨rfl, rfl, rfl, rfl, rfl,
    (claim_C5_amended bareDetector 0).1 rfl rfl,
    (claim_C5_amended raisingDetector 0).2.1 (fun _ => ModelResult.err) rfl rfl,
    (claim_C5_amended motionOnlyDetector 0).2.2 rfl rfl⟩

/-- Claim C10 — implicit threshold clamping: `set_confidence_threshold`
stores `max(0.0, min(1.0, t))`, hence the stored threshold always lies in
`[0, 1]` afterwards, while the constructor stores its threshold argument
unclamped, whatever the init outcome. -/
theorem claim_C10_set_threshold_clamps (st : DetectorState) (t : ℚ)
    (o : InitOutcome) (fb : Frame → List (ℤ × ℤ × ℤ × ℤ)) :
    (set_confidence_threshold st t).confidence_threshold = max 0 (min 1 t) ∧
      0 ≤ (set_confidence_threshold st t).confidence_threshold ∧
      (set_confidence_threshold st t).confidence_threshold ≤ 1 ∧
      (mkDetector t o fb).confidence_threshold = t := by
  refine ⟨rfl, le_max_left 0 (min 1 t), ?_, ?_⟩
  · exact max_le (by norm_num) (min_le_left 1 t)
  · cases o <;> rfl

/-! ## Orchestrator helper lemmas -/

theorem raiseAlert_fields (s : OrchestratorState) (now : ℚ) (n : Nat) (ok : Bool) :
    (raiseAlert s now n ok).alerts_raised = s.alerts_raised ++ [now] ∧
      (raiseAlert s now n ok).last_alert_time = some now ∧
      (raiseAlert s now n ok).config = s.config ∧
      (raiseAlert s now n ok).detection_history_len = s.detection_history_len ∧
      (raiseAlert s now n ok).is_running = s.is_running ∧
      (raiseAlert s now n ok).frame_grabber = s.frame_grabber := by
  unfold raiseAlert
  split <;> simp

theorem handle_detection_config (s : OrchestratorState) (now : ℚ) (n : Nat)
    (ok : Bool) : (handle_detection s now n ok).config = s.config := by
  rcases hl : s.last_alert_time with _ | t
  · simp only [handle_detection, hl]
    exact (raiseAlert_fields s now n ok).2.2.1
  · simp only [handle_detection, hl]
    split
    · rfl
    · exact (raiseAlert_fields s now n ok).2.2.1

/-- All failure paths of `send_alert_email` return `False` and leave the
alert system untouched (the history append sits after the SMTP send inside
the `try`). -/
theorem send_alert_email_fail (st : AlertSystemState) (subj : String) (tm : ℚ) :
    send_alert_email st subj tm false = (st, false) := by
  unfold send_alert_email
  split
  · rfl
  · split
    · rfl
    · rfl

/-- The alerts ghost and `last_alert_time` across one `_handle_detection`
call, phrased through the cooldown gate. -/
theorem handle_detection_gate (s : OrchestratorState) (now : ℚ) (n : Nat)
    (ok : Bool) :
    (handle_detection s now n ok).alerts_raised =
        (if gateOpen s.config.alert_cooldown_seconds s.last_alert_time now = true
         then s.alerts_raised ++ [now] else s.alerts_raised) ∧
      (gateOpen s.config.alert_cooldown_seconds s.last_alert_time now = true →
        (handle_detection s now n ok).last_alert_time = some now) ∧
      (gateOpen s.config.alert_cooldown_seconds s.last_alert_time now = false →
        handle_detection s now n ok = s) := by
  rcases hl : s.last_alert_time with _ | t
  · simp [handle_detection, gateOpen, hl,
      (raiseAlert_fields s now n ok).1, (raiseAlert_fields s now n ok).2.1]
  · by_cases hlt : tdSeconds (now - t) < s.config.alert_cooldown_seconds
    · have hng : ¬ s.config.alert_cooldown_seconds ≤ tdSeconds (now - t) := by omega
      simp [handle_detection, gateOpen, hl, if_pos hlt, hng]
    · have hg : s.config.alert_cooldown_seconds ≤ tdSeconds (now - t) := by omega
      simp [handle_detection, gateOpen, hl, if_neg hlt, hg,
        (raiseAlert_fields s now n ok).1, (raiseAlert_fields s now n ok).2.1]

/-- Modelled from the spec's words, for comparison with the code: one
cooldown decision as the claim states it — alert exactly when
`last_alert_time` is unset or `now - last_alert_time ≥ cooldown` as true
elapsed time. -/
def specCooldownStep (cd : ℤ) (st : Option ℚ × List ℚ) (now : ℚ) :
    Option ℚ × List ℚ :=
  match st.1 with
  | none => (some now, st.2 ++ [now])
  | some t => if (cd : ℚ) ≤ now - t then (some now, st.2 ++ [now]) else st

/-- Modelled from the spec's words: the alert times a run of qualifying
detection events would produce under the claim's cooldown rule. -/
def specCooldownRun (cd : ℤ) (times : List ℚ) : List ℚ :=
  (times.foldl (specCooldownStep cd) (none, [])).2

/-- Claim C1 counterexample: qualifying detection events at `t = 0` and
`t = 86405` (one day plus five seconds later).  The claim's rule — alert
whenever the true elapsed time is at least the 30-second cooldown — gives
two alerts, but the code gives one: `_handle_detection` compares the
`timedelta.seconds` component, which is the elapsed time modulo 24 hours,
so `(86405 s).seconds = 5 < 30` and the second alert is suppressed. -/
theorem claim_C1_counterexample :
    specCooldownRun 30 [0, 86405] = [0, 86405] ∧
      (runDetections initOrchestrator [0, 86405]).alerts_raised = [0] ∧
      initOrchestrator.config.alert_cooldown_seconds = 30 := by
  refine ⟨?_, ?_, rfl⟩
  · norm_num [specCooldownRun, specCooldownStep]
  · norm_num [runDetections, handle_detection, raiseAlert, initOrchestrator,
      defaultConfig, tdSeconds]

/-- The orchestrator's fresh state with an arbitrary non-negative cooldown
configured (as `configure(alert_cooldown_seconds = cd)` would). -/
def withCooldown (cd : ℤ) : OrchestratorState :=
  { initOrchestrator with
      config := { defaultConfig with alert_cooldown_seconds := cd } }

/-- Invariant carried along a run of detection events: the configured
cooldown, the ghost alert list spaced by at least the cooldown,
`last_alert_time` equal to the last ghost entry, and every recorded alert
time at most the bound `b`. -/
def CooldownInv (cd : ℤ) (s : OrchestratorState) (b : ℚ) : Prop :=
  s.config.alert_cooldown_seconds = cd ∧
    s.alerts_raised.Chain' (fun a c => (cd : ℚ) ≤ c - a) ∧
    s.last_alert_time = s.alerts_raised.getLast? ∧
    (∀ t, s.last_alert_time = some t → t ≤ b)

theorem cooldownInv_step (cd : ℤ) (_hcd : 0 ≤ cd) (s : OrchestratorState)
    (b now : ℚ) (hb : b ≤ now) (h : CooldownInv cd s b) (n : Nat) (ok : Bool) :
    CooldownInv cd (handle_detection s now n ok) now := by
  obtain ⟨hcfg, hchain, hlast, hble⟩ := h
  obtain ⟨hra, hrl, hrc, -, -, -⟩ := raiseAlert_fields s now n ok
  rcases hl : s.last_alert_time with _ | t
  · have halerts : s.alerts_raised = [] := by
      rw [hl] at hlast
      exact (List.getLast?_eq_none_iff.mp hlast.symm)
    have hred : handle_detection s now n ok = raiseAlert s now n ok := by
      simp only [handle_detection, hl]
    refine ⟨by rw [hred, hrc, hcfg], ?_, ?_, ?_⟩
    · rw [hred, hra, halerts]
      simp
    · rw [hred, hra, hrl, List.getLast?_concat]
    · intro u hu
      rw [hred, hrl] at hu
      cases hu
      exact le_refl now
  · have htb : t ≤ b := hble t hl
    by_cases hlt : tdSeconds (now - t) < s.config.alert_cooldown_seconds
    · have hred : handle_detection s now n ok = s := by
        simp only [handle_detection, hl, if_pos hlt]
      rw [hred]
      exact ⟨hcfg, hchain, hlast, fun u hu => le_trans (hble u hu) hb⟩
    · have hred : handle_detection s now n ok = raiseAlert s now n ok := by
        simp only [handle_detection, hl, if_neg hlt]
      have hd0 : (0 : ℚ) ≤ now - t := by linarith [le_trans htb hb]
      have hfl0 : (0 : ℤ) ≤ ⌊now - t⌋ := Int.floor_nonneg.mpr hd0
      have hgap : (cd : ℚ) ≤ now - t := by
        have h1 : cd ≤ ⌊now - t⌋ % 86400 := by
          rw [hcfg] at hlt
          unfold tdSeconds at hlt
          omega
        have h2 : ⌊now - t⌋ % 86400 ≤ ⌊now - t⌋ := by omega
        calc (cd : ℚ) ≤ (⌊now - t⌋ : ℚ) := by exact_mod_cast le_trans h1 h2
          _ ≤ now - t := Int.floor_le _
      refine ⟨by rw [hred, hrc, hcfg], ?_, ?_, ?_⟩
      · rw [hred, hra, List.chain'_append]
        refine ⟨hchain, List.chain'_singleton now, ?_⟩
        intro x hx y hy
        rw [← hlast, hl] at hx
        simp at hx hy
        linarith
      · rw [hred, hra, hrl, List.getLast?_concat]
      · intro u hu
        rw [hred, hrl] at hu
        cases hu
        exact le_refl now

theorem cooldownInv_run (cd : ℤ) (hcd : 0 ≤ cd) :
    ∀ (ts : List ℚ) (s : OrchestratorState) (b : ℚ),
      CooldownInv cd s b → ts.Chain' (· ≤ ·) →
      (∀ x, ts.head? = some x → b ≤ x) →
      ∃ b', CooldownInv cd (runDetections s ts) b' := by
  intro ts
  induction ts with
  | nil => exact fun s b h _ _ => ⟨b, h⟩
  | cons t ts ih =>
    intro s b h hch hhd
    have hstep := cooldownInv_step cd hcd s b t (hhd t rfl) h 1 false
    have hch' := (List.chain'_cons'.mp hch).2
    have hhd' : ∀ x, ts.head? = some x → t ≤ x := by
      intro x hx
      exact (List.chain'_cons'.mp hch).1 x hx
    have hrun : runDetections s (t :: ts) =
        runDetections (handle_detection s t 1 false) ts := by
      simp [runDetections]
    rw [hrun]
    exact ih (handle_detection s t 1 false) t hstep hch' hhd'

/-- Claim C1 as amended — per `_handle_detection`, an alert is raised
exactly when `last_alert_time` is unset or the SECONDS COMPONENT of
`now - last_alert_time` (elapsed time modulo 24 h, as `timedelta.seconds`
gives it) is at least `alert_cooldown_seconds`, and raising sets
`last_alert_time = now`; with a 30-second cooldown, qualifying events at
`t = 0, 10` produce exactly one alert and at `t = 0, 31` exactly two; and
along every time-ordered event sequence, consecutive alerts are never less
than the cooldown apart. -/
theorem claim_C1_cooldown_amended (cd : ℤ) (hcd : 0 ≤ cd) (ts : List ℚ)
    (hts : ts.Chain' (· ≤ ·)) :
    (∀ (s : OrchestratorState) (now : ℚ) (n : Nat) (ok : Bool),
        (handle_detection s now n ok).alerts_raised =
          (if gateOpen s.config.alert_cooldown_seconds s.last_alert_time now = true
           then s.alerts_raised ++ [now] else s.alerts_raised) ∧
        (gateOpen s.config.alert_cooldown_seconds s.last_alert_time now = true →
          (handle_detection s now n ok).last_alert_time = some now) ∧
        (gateOpen s.config.alert_cooldown_seconds s.last_alert_time now = false →
          handle_detection s now n ok = s)) ∧
      (runDetections initOrchestrator [0, 10]).alerts_raised = [0] ∧
      (runDetections initOrchestrator [0, 31]).alerts_raised = [0, 31] ∧
      ((runDetections (withCooldown cd) ts).alerts_raised).Chain'
        (fun a c => (cd : ℚ) ≤ c - a) := by
  refine ⟨fun s now n ok => handle_detection_gate s now n ok, ?_, ?_, ?_⟩
  · norm_num [runDetections, handle_detection, raiseAlert, initOrchestrator,
      defaultConfig, tdSeconds]
  · norm_num [runDetections, handle_detection, raiseAlert, initOrchestrator,
      defaultConfig, tdSeconds]
  · have hbase : ∀ b : ℚ, CooldownInv cd (withCooldown cd) b := by
      intro b
      refine ⟨rfl, ?_, rfl, ?_⟩
      · simp [withCooldown, initOrchestrator]
      · intro t ht
        simp [withCooldown, initOrchestrator] at ht
    rcases ts with _ | ⟨t, ts'⟩
    · simp [runDetections, withCooldown, initOrchestrator]
    · obtain ⟨b', hinv⟩ := cooldownInv_run cd hcd (t :: ts') (withCooldown cd) t
        (hbase t) hts (fun x hx => by cases hx; exact le_refl t)
      exact hinv.2.1

/-- Witness for C1 (amended) at cooldown 30 and events `[0, 31]`. -/
theorem claim_C1_witness :
    (0 : ℤ) ≤ 30 ∧ ([0, 31] : List ℚ).Chain' (· ≤ ·) ∧
      ((runDetections initOrchestrator [0, 10]).alerts_raised = [0] ∧
        (runDetections initOrchestrator [0, 31]).alerts_raised = [0, 31] ∧
        ((runDetections (withCooldown 30) [0, 31]).alerts_raised).Chain'
          (fun a c => (30 : ℚ) ≤ c - a)) := by
  have hch : ([0, 31] : List ℚ).Chain' (· ≤ ·) := by
    norm_num [List.chain'_cons, List.chain'_singleton]
  have h := claim_C1_cooldown_amended 30 (by norm_num) [0, 31] hch
  exact ⟨by norm_num, hch, h.2.1, h.2.2.1, h.2.2.2⟩

/-- An orchestrator with email alerts enabled, credentials configured and
one recipient, as `set_email_config` leaves it (orchestrator.py lines
178-184). -/
def emailOrchestrator : OrchestratorState :=
  { initOrchestrator with
      config := { defaultConfig with enable_email_alerts := true },
      alert_system := { email_configured := true,
                        recipient_emails := ["ops@example.com"],
                        alert_history := [] } }

/-- Claim C6 counterexample: an alert passes the cooldown gate at `t = 0`
(two detections) but SMTP delivery fails.  The alert is composed —
`last_alert_time` is set and the ghost records the raise — yet
`AlertSystem.alert_history` stays empty: the record is appended only after
a successful send (alert_system.py lines 84-94), so on delivery failure NO
AlertRecord is present in the alert history, contrary to the claim. -/
theorem claim_C6_counterexample :
    (handle_detection emailOrchestrator 0 2 false).alerts_raised = [0] ∧
      (handle_detection emailOrchestrator 0 2 false).last_alert_time = some 0 ∧
      (handle_detection emailOrchestrator 0 2 false).alert_system.alert_history
        = [] := by
  refine ⟨?_, ?_, ?_⟩ <;>
    simp [handle_detection, raiseAlert, emailOrchestrator, initOrchestrator,
      defaultConfig, send_alert_email, alertSubject]

/-- Claim C6 as amended — for an alert passing the cooldown gate whose
delivery fails: `last_alert_time` keeps the value `now` set when the alert
was composed, the cooldown state is unaffected, and a further qualifying
detection within the cooldown window raises nothing (the orchestrator state
is returned unchanged); every failing path of `send_alert_email` reports
`False` and leaves the alert system untouched.  However the AlertRecord is
NOT in `alert_history`: the failed send leaves the history exactly as it
was. -/
theorem claim_C6_notification_failure (s : OrchestratorState) (now now' : ℚ)
    (n n' : Nat) (ok' : Bool)
    (hgate : gateOpen s.config.alert_cooldown_seconds s.last_alert_time now
      = true) :
    (handle_detection s now n false).last_alert_time = some now ∧
      (handle_detection s now n false).alert_system.alert_history =
        s.alert_system.alert_history ∧
      (∀ (st : AlertSystemState) (subj : String) (tm : ℚ),
        send_alert_email st subj tm false = (st, false)) ∧
      (tdSeconds (now' - now) < s.config.alert_cooldown_seconds →
        handle_detection (handle_detection s now n false) now' n' ok' =
          handle_detection s now n false) := by
  have hlater : (handle_detection s now n false).last_alert_time = some now :=
    (handle_detection_gate s now n false).2.1 hgate
  refine ⟨hlater, ?_, send_alert_email_fail, ?_⟩
  · have hred : handle_detection s now n false = raiseAlert s now n false := by
      rcases hl : s.last_alert_time with _ | t
      · simp only [handle_detection, hl]
      · simp only [gateOpen, hl, decide_eq_true_eq] at hgate
        simp only [handle_detection, hl,
          if_neg (show ¬ tdSeconds (now - t) < s.config.alert_cooldown_seconds
            by omega)]
    rw [hred]
    unfold raiseAlert
    split
    · simp [send_alert_email_fail]
    · rfl
  · intro hcool
    have hcfg := handle_detection_config s now n false
    rcases hfst : handle_detection s now n false with s1
    rw [hfst] at hlater hcfg
    simp only [handle_detection, hlater, hcfg]
    rw [if_pos hcool]

/-- Witness for C6 on the configured email orchestrator, alert at `t = 0`,
failed delivery, and a re-detection at `t = 10` inside the 30 s window. -/
theorem claim_C6_witness :
    gateOpen emailOrchestrator.config.alert_cooldown_seconds
        emailOrchestrator.last_alert_time 0 = true ∧
      tdSeconds ((10 : ℚ) - 0) < emailOrchestrator.config.alert_cooldown_seconds ∧
      ((handle_detection emailOrchestrator 0 2 false).last_alert_time = some 0 ∧
        (handle_detection emailOrchestrator 0 2 false).alert_system.alert_history =
          emailOrchestrator.alert_system.alert_history ∧
        handle_detection (handle_detection emailOrchestrator 0 2 false) 10 1 true =
          handle_detection emailOrchestrator 0 2 false) := by
  have hgate : gateOpen emailOrchestrator.config.alert_cooldown_seconds
      emailOrchestrator.last_alert_time 0 = true := rfl
  have hcool : tdSeconds ((10 : ℚ) - 0) <
      emailOrchestrator.config.alert_cooldown_seconds := by
    norm_num [tdSeconds, emailOrchestrator, initOrchestrator, defaultConfig]
  have h := claim_C6_notification_failure emailOrchestrator 0 10 2 1 true hgate
  exact ⟨hgate, hcool, h.1, h.2.1, h.2.2.2 hcool⟩

/-- A run in which the first processed frame has no qualifying detection
and the second (at `t = 31`) has one, while the capture thread has pushed
three frames: one alert raised, three frames captured. -/
def statsRunA : OrchestratorState :=
  { (process_event (process_event initOrchestrator 0 0 false) 31 1 false) with
      frame_grabber :=
        some (captureAll ((openGrabber (initGrabber 30) true).1) [1, 2, 3]) }

/-- A run in which both processed frames (at `t = 0` and `t = 31`) have a
qualifying detection, while the capture thread has pushed one frame: two
alerts raised, one frame captured. -/
def statsRunB : OrchestratorState :=
  { (process_event (process_event initOrchestrator 0 1 false) 31 1 false) with
      frame_grabber :=
        some (captureAll ((openGrabber (initGrabber 30) true).1) [1]) }

/-- Claim C9 counterexample: `get_stats` returns identical dictionaries for
the two runs above although they raised different numbers of alerts (1
vs. 2) and captured different numbers of frames (3 vs. 1) — so the exposed
statistics operation includes neither a frames-captured total nor an
alerts-raised total. -/
theorem claim_C9_counterexample :
    get_stats statsRunA = get_stats statsRunB ∧
      statsRunA.alerts_raised = [31] ∧ statsRunB.alerts_raised = [0, 31] ∧
      framesCaptured statsRunA = 3 ∧ framesCaptured statsRunB = 1 := by
  refine ⟨?_, ?_, ?_, ?_, ?_⟩
  · norm_num [get_stats, statsRunA, statsRunB, process_event, handle_detection,
      raiseAlert, initOrchestrator, defaultConfig, tdSeconds]
  · norm_num [statsRunA, process_event, handle_detection, raiseAlert,
      initOrchestrator, defaultConfig, tdSeconds]
  · norm_num [statsRunB, process_event, handle_detection, raiseAlert,
      initOrchestrator, defaultConfig, tdSeconds]
  · rfl
  · rfl

/-- Claim C9 as amended — `get_stats` returns exactly `is_running`, the
detection-history length (`total_detections`, incremented once per
processed frame), `last_alert` (the cooldown state) and a copy of the
config; it reads neither the frame grabber (so no frames-captured total)
nor the alert system (so no alerts-raised or delivery history total). -/
theorem claim_C9_stats_amended (s : OrchestratorState) (now : ℚ) (n : Nat)
    (ok : Bool) :
    get_stats s = { is_running := s.is_running,
                    total_detections := s.detection_history_len,
                    last_alert := s.last_alert_time, config := s.config } ∧
      (get_stats (process_event s now n ok)).total_detections =
        (get_stats s).total_detections + 1 ∧
      (∀ g : Option FrameGrabberState,
        get_stats { s with frame_grabber := g } = get_stats s) ∧
      (∀ a : AlertSystemState,
        get_stats { s with alert_system := a } = get_stats s) := by
  refine ⟨rfl, ?_, fun g => rfl, fun a => rfl⟩
  have hlen : (handle_detection s now n ok).detection_history_len =
      s.detection_history_len := by
    rcases hl : s.last_alert_time with _ | t
    · simp only [handle_detection, hl]
      exact (raiseAlert_fields s now n ok).2.2.2.1
    · simp only [handle_detection, hl]
      split
      · rfl
      · exact (raiseAlert_fields s now n ok).2.2.2.1
  unfold process_event get_stats
  split
  · rfl
  · simp [hlen]
